import Mathlib

/-!
# Verification of the `cruzz` account-identity core

Shallow embedding of `src/authentication/models.py`: the `UserManager`
(`create_user`, `create_superuser`), the `User` model fields, the display-name
methods (`get_full_name`, `get_short_name`) and JWT token issuance
(`_generate_jwt_token`).

Python `None` is modelled as `Option.none`; Django's persistence layer is
modelled as an explicit store of user records with the uniqueness constraints
declared on the `username` and `email` fields; library functions that the code
calls but that are not part of this repository (Django's `normalize_email`
and `set_password`, the `jwt` encoder) are modelled from their documented
behaviour as described by the spec, each marked in its doc comment.
-/

namespace Cruzz

/-- Typed errors of the account-creation and token paths, named as in the
spec's error taxonomy (the Python code raises `TypeError` for the missing-field
checks and surfaces the database uniqueness conflicts for the duplicates). -/
inductive Err where
  | MissingUsername
  | MissingEmail
  | MissingPassword
  | DuplicateUsername
  | DuplicateEmail
deriving DecidableEq, Repr

/-- The raw credentials dictionary passed to `create_user` /
`create_superuser`.  `none` models Python `None` (for the three required
keys, which the code reads with `credentials['...']`, an absent key and a
`None` value are conflated into `none`; the optional profile fields are read
with `.get(key, None)`, so absence is exactly `none`). -/
structure Credentials where
  username : Option String
  email : Option String
  password : Option String
  first_name : Option String := none
  last_name : Option String := none
  city : Option String := none
  state : Option String := none
  country : Option String := none
deriving DecidableEq, Repr

/-- A persisted `User` row.  `pk` is the primary key assigned by the store;
`password` holds the stored password hash (Django's `AbstractBaseUser`
keeps the hash in the `password` column). -/
structure User where
  pk : Nat
  username : String
  email : String
  password : String
  is_active : Bool := false
  is_staff : Bool := false
  is_superuser : Bool := false
  first_name : Option String := none
  last_name : Option String := none
  city : Option String := none
  state : Option String := none
  country : Option String := none
deriving DecidableEq, Repr

/-- The backing store: the persisted rows plus the next primary key the
database will assign. -/
structure Store where
  users : List User
  nextId : Nat
deriving DecidableEq, Repr

/-- The store of a fresh process: no rows, first primary key 1. -/
def emptyStore : Store := ⟨[], 1⟩

/-- Splits a character list at the LAST occurrence of `c`, returning the
part before and the part after; `none` when `c` does not occur. -/
def rsplitOnce (c : Char) : List Char → Option (List Char × List Char)
  | [] => none
  | x :: xs =>
    match rsplitOnce c xs with
    | some (a, b) => some (x :: a, b)
    | none => if x = c then some ([], xs) else none

/-- Modelled from the spec: Django's `BaseUserManager.normalize_email` is
library code outside this repository; per the spec it normalizes an email by
"lowercasing the domain portion per standard email-normalization rules",
i.e. it splits at the last `@` and case-folds only the domain segment,
leaving the local part untouched (and leaves the string unchanged when it
has no `@`). -/
def normalize_email (email : String) : String :=
  match rsplitOnce '@' email.toList with
  | none => email
  | some (name, domain) => String.mk (name ++ '@' :: domain.map Char.toLower)

/-- Modelled from the spec: Django's `set_password` is library code outside
this repository; per the spec it stores a salted one-way hash in a
`algorithm$...` format when a plaintext is supplied, and an unusable
sentinel hash (prefix `!`) when the password is `None`, so that the hash is
never empty and never equal to the output of hashing any plaintext. -/
def set_password (p : Option String) : String :=
  match p with
  | none => "!"
  | some s => "pbkdf2_sha256$" ++ s

/-- `UserManager.create_user`: validates that username and email are not
`None`, normalizes the email, hashes the password, copies the optional
profile fields verbatim, and saves the new row; the save enforces the
`unique=True` constraints on `username` and `email` and assigns the primary
key.  Returns the typed result together with the (possibly updated) store;
every failure leaves the store exactly as it was. -/
def create_user (st : Store) (c : Credentials) : Except Err User × Store :=
  match c.username with
  | none => (.error .MissingUsername, st)
  | some uname =>
    match c.email with
    | none => (.error .MissingEmail, st)
    | some em =>
      let u : User :=
        { pk := st.nextId
          username := uname
          email := normalize_email em
          password := set_password c.password
          first_name := c.first_name
          last_name := c.last_name
          city := c.city
          state := c.state
          country := c.country }
      if st.users.any (fun v => v.username == u.username) then
        (.error .DuplicateUsername, st)
      else if st.users.any (fun v => v.email == u.email) then
        (.error .DuplicateEmail, st)
      else
        (.ok u, ⟨st.users ++ [u], st.nextId + 1⟩)

/-- `UserManager.create_superuser`: rejects a `None` password, then creates
the user through `create_user`, then sets `is_superuser` and `is_staff` to
`True` and saves the update in place (same primary key, so no uniqueness
conflict can arise from the second save). -/
def create_superuser (st : Store) (c : Credentials) : Except Err User × Store :=
  match c.password with
  | none => (.error .MissingPassword, st)
  | some _ =>
    match create_user st c with
    | (.error e, st₁) => (.error e, st₁)
    | (.ok u, st₁) =>
      let u₂ : User := { u with is_superuser := true, is_staff := true }
      (.ok u₂, ⟨st₁.users.map (fun v => if v.pk = u.pk then u₂ else v), st₁.nextId⟩)

/-- Python's `str` applied to an optional string: `str(None)` is the literal
string `"None"`. -/
def pyStr : Option String → String
  | none => "None"
  | some s => s

/-- `User.get_full_name`: `str(self.first_name) + ' ' + str(self.last_name)`. -/
def get_full_name (u : User) : String :=
  pyStr u.first_name ++ " " ++ pyStr u.last_name

/-- `User.get_short_name`: `str(self.first_name)`. -/
def get_short_name (u : User) : String :=
  pyStr u.first_name

/-- Modelled from the spec: the `jwt` library's HMAC-SHA256 signature is
cryptographic library code outside this repository; it is modelled as an
ideal MAC — the tag determines (and is determined by) the signing key and
the signed payload, so verification succeeds exactly under the signing key.
The payload here is the `(id, exp)` claim pair. -/
structure Mac where
  key : String
  msg : Nat × Nat
deriving DecidableEq, Repr

/-- The HMAC-SHA256 tag over the claims, idealized (see `Mac`). -/
def hmac_sha256 (key : String) (msg : Nat × Nat) : Mac := ⟨key, msg⟩

/-- A three-part JWT: the two claims `id` and `exp` plus the signature. -/
structure Token where
  id : Nat
  exp : Nat
  sig : Mac
deriving DecidableEq, Repr

/-- `jwt.encode({'id': id, 'exp': exp}, secret, algorithm='HS256')`. -/
def jwt_encode (id exp : Nat) (secret : String) : Token :=
  ⟨id, exp, hmac_sha256 secret (id, exp)⟩

/-- Decoding with signature verification: returns the `(id, exp)` claims
when the signature verifies under `secret`, and fails (`none`) otherwise. -/
def jwt_decode (t : Token) (secret : String) : Option (Nat × Nat) :=
  if t.sig = hmac_sha256 secret (t.id, t.exp) then some (t.id, t.exp) else none

/-- Seconds in 60 days: `timedelta(days=60)` in whole seconds. -/
def sixtyDays : Nat := 60 * 86400

/-- `User._generate_jwt_token`: reads the clock (`now`, an integer Unix
timestamp in seconds) and the process-wide `settings.SECRET_KEY`, and
returns the encoded token with claims `id = self.pk` and
`exp = int((now + 60 days).timestamp())`.  A pure function of its three
arguments: it takes no store and returns no store. -/
def _generate_jwt_token (u : User) (now : Nat) (secret : String) : Token :=
  jwt_encode u.pk (now + sixtyDays) secret

/-- The states of the store reachable from a fresh process through the two
creation operations (their failures leave the store unchanged, so only the
successful transitions matter). -/
inductive Reachable : Store → Prop where
  | init : Reachable emptyStore
  | create {st c u st'} : Reachable st → create_user st c = (.ok u, st') →
      Reachable st'
  | super {st c u st'} : Reachable st → create_superuser st c = (.ok u, st') →
      Reachable st'

/-- No two rows of the store share a username or a (stored, i.e. normalized)
email. -/
def UniqueStore (st : Store) : Prop :=
  st.users.Pairwise (fun a b => a.username ≠ b.username ∧ a.email ≠ b.email)

/-- Every stored row's primary key is below the next key the store will
assign (so freshly assigned keys never collide with existing rows). -/
def PkFresh (st : Store) : Prop := ∀ v ∈ st.users, v.pk < st.nextId

/-- The full store invariant. -/
def Inv (st : Store) : Prop := PkFresh st ∧ UniqueStore st

/-- Characterization of a successful `create_user` call: the credentials had
a username and an email, the returned row is exactly the row built from them
(fresh key, normalized email, hashed password, default flags, profile copied
verbatim), the store gained exactly that row, and no existing row shared its
username or email. -/
theorem create_user_ok {st : Store} {c : Credentials} {u : User} {st' : Store}
    (h : create_user st c = (.ok u, st')) :
    ∃ uname em, c.username = some uname ∧ c.email = some em ∧
      u = { pk := st.nextId, username := uname, email := normalize_email em,
            password := set_password c.password, first_name := c.first_name,
            last_name := c.last_name, city := c.city, state := c.state,
            country := c.country } ∧
      st' = ⟨st.users ++ [u], st.nextId + 1⟩ ∧
      (∀ v ∈ st.users, v.username ≠ u.username) ∧
      (∀ v ∈ st.users, v.email ≠ u.email) := by
  match hu : c.username, he : c.email with
  | none, _ => simp [create_user, hu] at h
  | some uname, none => simp [create_user, hu, he] at h
  | some uname, some em =>
    refine ⟨uname, em, rfl, rfl, ?_⟩
    simp only [create_user, hu, he] at h
    split at h
    · exact absurd h (by simp)
    case isFalse h1 =>
      split at h
      · exact absurd h (by simp)
      case isFalse h2 =>
        obtain ⟨hu', hst'⟩ := Prod.mk.injEq .. ▸ h
        obtain rfl : _ = u := Except.ok.inj hu'
        refine ⟨rfl, hst'.symm, ?_, ?_⟩
        · intro v hv
          have := (List.any_eq_false.mp (Bool.not_eq_true _ ▸ h1)) v hv
          simpa using this
        · intro v hv
          have := (List.any_eq_false.mp (Bool.not_eq_true _ ▸ h2)) v hv
          simpa using this

/-- Characterization of a successful `create_superuser` call: it is a
successful `create_user` followed by the in-place flag update of the new
row. -/
theorem create_superuser_ok {st : Store} {c : Credentials} {u : User} {st' : Store}
    (h : create_superuser st c = (.ok u, st')) :
    ∃ p u₀ st₁, c.password = some p ∧ create_user st c = (.ok u₀, st₁) ∧
      u = { u₀ with is_superuser := true, is_staff := true } ∧
      st' = ⟨st₁.users.map (fun v => if v.pk = u₀.pk then u else v), st₁.nextId⟩ := by
  match hp : c.password with
  | none => simp [create_superuser, hp] at h
  | some p =>
    simp only [create_superuser, hp] at h
    match hc : create_user st c with
    | (.error e, st₁) => rw [hc] at h; exact absurd h (by simp)
    | (.ok u₀, st₁) =>
      rw [hc] at h
      obtain ⟨hu', hst'⟩ := Prod.mk.injEq .. ▸ h
      obtain rfl : _ = u := Except.ok.inj hu'
      exact ⟨p, u₀, st₁, rfl, rfl, rfl, hst'.symm⟩

/-- A successful `create_user` preserves the store invariant. -/
theorem inv_create_user {st : Store} {c : Credentials} {u : User} {st' : Store}
    (hinv : Inv st) (h : create_user st c = (.ok u, st')) : Inv st' := by
  obtain ⟨hpk, hpw⟩ := hinv
  obtain ⟨uname, em, hu, he, hurec, hst', hnu, hne⟩ := create_user_ok h
  have hupk : u.pk = st.nextId := by rw [hurec]
  subst hst'
  constructor
  · intro v hv
    rcases List.mem_append.mp hv with hv | hv
    · exact Nat.lt_succ_of_lt (hpk v hv)
    · simp only [List.mem_singleton] at hv
      subst hv
      dsimp only
      omega
  · refine List.pairwise_append.mpr ⟨hpw, List.pairwise_singleton .., ?_⟩
    intro a ha b hb
    simp only [List.mem_singleton] at hb
    subst hb
    exact ⟨hnu a ha, hne a ha⟩

/-- A successful `create_superuser` preserves the store invariant: the flag
update rewrites only the freshly inserted row and changes neither its
username nor its email nor its key. -/
theorem inv_create_superuser {st : Store} {c : Credentials} {u : User} {st' : Store}
    (hinv : Inv st) (h : create_superuser st c = (.ok u, st')) : Inv st' := by
  obtain ⟨p, u₀, st₁, hp, hc, hurec, hst'⟩ := create_superuser_ok h
  obtain ⟨uname, em, hu, he, hu₀rec, hst₁, hnu, hne⟩ := create_user_ok hc
  have hpk₀ : u₀.pk = st.nextId := by rw [hu₀rec]
  subst hst₁ hst'
  have hmap : (st.users ++ [u₀]).map (fun v => if v.pk = u₀.pk then u else v)
      = st.users ++ [u] := by
    rw [List.map_append]
    congr 1
    · calc st.users.map (fun v => if v.pk = u₀.pk then u else v)
          = st.users.map id := by
            apply List.map_congr_left
            intro v hv
            have : v.pk ≠ u₀.pk := by
              have := hinv.1 v hv; omega
            simp [this]
        _ = st.users := List.map_id _
    · simp
  simp only [hmap]
  constructor
  · intro v hv
    rcases List.mem_append.mp hv with hv | hv
    · exact Nat.lt_succ_of_lt (hinv.1 v hv)
    · simp only [List.mem_singleton] at hv
      subst hv
      rw [hurec]
      dsimp only
      omega
  · refine List.pairwise_append.mpr ⟨hinv.2, List.pairwise_singleton .., ?_⟩
    intro a ha b hb
    simp only [List.mem_singleton] at hb
    subst hb
    rw [hurec]
    exact ⟨hnu a ha, hne a ha⟩

/-- Every reachable store satisfies the invariant. -/
theorem reachable_inv {st : Store} (h : Reachable st) : Inv st := by
  induction h with
  | init => exact ⟨by intro v hv; simp [emptyStore] at hv, List.Pairwise.nil⟩
  | create _ hc ih => exact inv_create_user ih hc
  | super _ hc ih => exact inv_create_superuser ih hc

/-- **C1**: `IssueToken` on an account at time `T` returns a token whose
claims decode (under the signing secret) to exactly the account's id and
`exp = T + 60 days` in seconds, and decoding with any different secret fails
signature verification. -/
theorem token_encodes_id_and_expiry (u : User) (now : Nat) (secret : String) :
    jwt_decode (_generate_jwt_token u now secret) secret
      = some (u.pk, now + 60 * 86400) ∧
    ∀ s', s' ≠ secret →
      jwt_decode (_generate_jwt_token u now secret) s' = none := by
  constructor
  · simp [jwt_decode, _generate_jwt_token, jwt_encode, hmac_sha256, sixtyDays]
  · intro s' hne
    simp only [jwt_decode, _generate_jwt_token, jwt_encode, hmac_sha256]
    rw [if_neg]
    intro hmac
    injection hmac with h1 h2
    exact hne h1.symm

/-- Witness for C1 at id 42, time 1000, secret `"s"`, wrong secret `"t"`. -/
theorem token_encodes_id_and_expiry_witness :
    jwt_decode (_generate_jwt_token
        ⟨42, "u", "e@x.y", "!", false, false, false, none, none, none, none, none⟩
        1000 "s") "s" = some (42, 1000 + 60 * 86400) ∧
    jwt_decode (_generate_jwt_token
        ⟨42, "u", "e@x.y", "!", false, false, false, none, none, none, none, none⟩
        1000 "s") "t" = none :=
  ⟨(token_encodes_id_and_expiry _ 1000 "s").1,
   (token_encodes_id_and_expiry _ 1000 "s").2 "t" (by decide)⟩

/-- **C7**: `get_full_name` returns `firstName + " " + lastName` with the
literal string `"None"` substituted for an unset field (so set/set gives
`f ++ " " ++ l`, unset/unset gives `"None None"`), and `get_short_name`
returns `firstName` alone with the same substitution. -/
theorem display_name_substitution (u : User) (f l : String) :
    (u.first_name = some f → u.last_name = some l →
      get_full_name u = f ++ " " ++ l) ∧
    (u.first_name = none → u.last_name = some l →
      get_full_name u = "None " ++ l) ∧
    (u.first_name = some f → u.last_name = none →
      get_full_name u = f ++ " None") ∧
    (u.first_name = none → u.last_name = none →
      get_full_name u = "None None") ∧
    (u.first_name = some f → get_short_name u = f) ∧
    (u.first_name = none → get_short_name u = "None") := by
  refine ⟨?_, ?_, ?_, ?_, ?_, ?_⟩
  · intro h1 h2
    simp [get_full_name, pyStr, h1, h2]
  · intro h1 h2
    simp only [get_full_name, pyStr, h1, h2]
    rw [show ("None" ++ " " : String) = "None " from rfl]
  · intro h1 h2
    simp only [get_full_name, pyStr, h1, h2]
    rw [String.append_assoc,
        show (" " ++ "None" : String) = " None" from rfl]
  · intro h1 h2
    simp only [get_full_name, pyStr, h1, h2]
    rfl
  · intro h1
    simp [get_short_name, pyStr, h1]
  · intro h1
    simp [get_short_name, pyStr, h1]

/-- Witness for C7: Ada Lovelace and the fully-unset case. -/
theorem display_name_substitution_witness :
    get_full_name ⟨1, "al", "a@x.y", "!", false, false, false,
        some "Ada", some "Lovelace", none, none, none⟩ = "Ada Lovelace" ∧
    get_full_name ⟨2, "nn", "n@x.y", "!", false, false, false,
        none, none, none, none, none⟩ = "None None" ∧
    get_short_name ⟨2, "nn", "n@x.y", "!", false, false, false,
        none, none, none, none, none⟩ = "None" :=
  ⟨(display_name_substitution _ "Ada" "Lovelace").1 rfl rfl,
   (display_name_substitution _ "" "").2.2.2.1 rfl rfl,
   (display_name_substitution _ "" "").2.2.2.2.2 rfl⟩

/-- **C8**: token issuance is pure: it takes no store and returns no store
(it is a plain function in this embedding, so it cannot mutate any account
field or store record), and its result depends only on the account's primary
key, the clock reading and the secret — two accounts agreeing on `pk` get
the identical token at the same time and secret. -/
theorem issue_token_depends_only_on_pk (u v : User) (now : Nat) (secret : String)
    (h : u.pk = v.pk) :
    _generate_jwt_token u now secret = _generate_jwt_token v now secret := by
  simp [_generate_jwt_token, jwt_encode, hmac_sha256, h]

/-- Witness for C8: two accounts differing in every field but `pk` obtain
the same token. -/
theorem issue_token_depends_only_on_pk_witness :
    _generate_jwt_token
        ⟨7, "a", "a@x.y", "!", false, false, false, none, none, none, none, none⟩
        5 "k"
      = _generate_jwt_token
        ⟨7, "b", "b@x.y", "pbkdf2_sha256$p", true, true, true,
          some "f", some "l", some "c", some "s", some "co"⟩
        5 "k" :=
  issue_token_depends_only_on_pk _ _ 5 "k" rfl

/-- **C2**: in every store reachable through the creation operations no two
accounts share a username or a (normalized) email, and a creation attempt
whose username — or, with a fresh username, whose normalized email — already
exists fails with `DuplicateUsername` / `DuplicateEmail` respectively,
leaving the store unchanged. -/
theorem uniqueness_invariant_and_duplicate_rejection :
    (∀ st, Reachable st → UniqueStore st) ∧
    (∀ st c uname em, c.username = some uname → c.email = some em →
      (∃ v ∈ st.users, v.username = uname) →
      create_user st c = (.error .DuplicateUsername, st)) ∧
    (∀ st c uname em, c.username = some uname → c.email = some em →
      (∀ v ∈ st.users, v.username ≠ uname) →
      (∃ v ∈ st.users, v.email = normalize_email em) →
      create_user st c = (.error .DuplicateEmail, st)) := by
  refine ⟨fun st h => (reachable_inv h).2, ?_, ?_⟩
  · intro st c uname em hu he hdup
    have h1 : (st.users.any fun v => v.username == uname) = true :=
      List.any_eq_true.mpr (by obtain ⟨v, hv, h⟩ := hdup; exact ⟨v, hv, by simp [h]⟩)
    simp [create_user, hu, he, h1]
  · intro st c uname em hu he hfresh hdup
    have h1 : (st.users.any fun v => v.username == uname) = false :=
      List.any_eq_false.mpr (fun v hv => by simp [hfresh v hv])
    have h2 : (st.users.any fun v => v.email == normalize_email em) = true :=
      List.any_eq_true.mpr (by obtain ⟨v, hv, h⟩ := hdup; exact ⟨v, hv, by simp [h]⟩)
    simp [create_user, hu, he, h1, h2]

/-- Witness for C2: the empty store is reachable and duplicate-free, a
duplicate username is rejected, and a duplicate email (colliding after
domain case-folding) is rejected, each leaving the one-row store as it
was. -/
theorem uniqueness_invariant_and_duplicate_rejection_witness :
    UniqueStore emptyStore ∧
    create_user
        ⟨[⟨1, "alice", "a@x.y", "!", false, false, false, none, none, none, none, none⟩], 2⟩
        { username := some "alice", email := some "b@x.y", password := some "p" }
      = (.error .DuplicateUsername,
         ⟨[⟨1, "alice", "a@x.y", "!", false, false, false, none, none, none, none, none⟩], 2⟩) ∧
    create_user
        ⟨[⟨1, "alice", "a@x.y", "!", false, false, false, none, none, none, none, none⟩], 2⟩
        { username := some "bob", email := some "a@X.y", password := some "p" }
      = (.error .DuplicateEmail,
         ⟨[⟨1, "alice", "a@x.y", "!", false, false, false, none, none, none, none, none⟩], 2⟩) :=
  ⟨uniqueness_invariant_and_duplicate_rejection.1 emptyStore Reachable.init,
   uniqueness_invariant_and_duplicate_rejection.2.1 _ _ "alice" "b@x.y" rfl rfl
     (by decide),
   uniqueness_invariant_and_duplicate_rejection.2.2 _ _ "bob" "a@X.y" rfl rfl
     (by decide) (by decide)⟩

/-- The usable hash is 14 characters of prefix plus the plaintext. -/
theorem length_set_password_some (p : String) :
    (set_password (some p)).length = 14 + p.length := by
  rw [set_password, String.length_append,
      show ("pbkdf2_sha256$" : String).length = 14 from rfl]

/-- A usable hash is never empty. -/
theorem set_password_some_ne_empty (p : String) : set_password (some p) ≠ "" := by
  intro h
  have hlen := congrArg String.length h
  rw [length_set_password_some] at hlen
  simp at hlen

/-- A usable hash never equals its plaintext. -/
theorem set_password_some_ne_plain (p : String) : set_password (some p) ≠ p := by
  intro h
  have hlen := congrArg String.length h
  rw [length_set_password_some] at hlen
  omega

/-- The unusable sentinel hash is not empty. -/
theorem set_password_none_ne_empty : set_password none ≠ "" := by
  intro h
  exact absurd (congrArg String.length h) (by decide)

/-- The unusable sentinel hash is not the hash of any plaintext. -/
theorem set_password_none_ne_some (p : String) :
    set_password none ≠ set_password (some p) := by
  intro h
  have hlen := congrArg String.length h
  rw [length_set_password_some] at hlen
  have : (set_password none).length = 1 := by decide
  omega

/-- C3 counterexample: with the username present but EMPTY, `create_user`
does not fail with `MissingUsername` — the code checks only `is None`, so
the account is created with the empty username. -/
theorem empty_username_accepted :
    (create_user emptyStore
        { username := some "", email := some "e@x.y", password := some "p" }).1
      = .ok ⟨1, "", "e@x.y", "pbkdf2_sha256$p", false, false, false,
             none, none, none, none, none⟩ := by
  rfl

/-- C3 amended: `create_user` fails with `MissingUsername` exactly when the
username is `None`, and with `MissingEmail` when the username is present
and the email is `None`; a present-but-empty username or email is NOT
rejected — with the field present the result is never the corresponding
missing-field error. -/
theorem missing_field_checks (st : Store) (c : Credentials) :
    (c.username = none → create_user st c = (.error .MissingUsername, st)) ∧
    (c.username ≠ none → c.email = none →
      create_user st c = (.error .MissingEmail, st)) ∧
    (∀ uname, c.username = some uname →
      (create_user st c).1 ≠ .error .MissingUsername) ∧
    (∀ uname em, c.username = some uname → c.email = some em →
      (create_user st c).1 ≠ .error .MissingEmail) := by
  refine ⟨?_, ?_, ?_, ?_⟩
  · intro h
    simp [create_user, h]
  · intro h1 h2
    match hu : c.username with
    | none => exact absurd hu h1
    | some uname => simp [create_user, hu, h2]
  · intro uname hu
    match he : c.email with
    | none => simp [create_user, hu, he]
    | some em =>
      simp only [create_user, hu, he]
      split
      · simp
      · split <;> simp
  · intro uname em hu he
    simp only [create_user, hu, he]
    split
    · simp
    · split <;> simp

/-- Witness for the amended C3: `None` fields are rejected as missing; the
empty-string username and email are not. -/
theorem missing_field_checks_witness :
    create_user emptyStore
        { username := none, email := some "e@x.y", password := some "p" }
      = (.error .MissingUsername, emptyStore) ∧
    create_user emptyStore
        { username := some "u", email := none, password := some "p" }
      = (.error .MissingEmail, emptyStore) ∧
    (create_user emptyStore
        { username := some "", email := some "e@x.y", password := some "p" }).1
      ≠ .error .MissingUsername ∧
    (create_user emptyStore
        { username := some "u", email := some "", password := some "p" }).1
      ≠ .error .MissingEmail :=
  ⟨(missing_field_checks emptyStore _).1 rfl,
   (missing_field_checks emptyStore _).2.1 (by simp) rfl,
   (missing_field_checks emptyStore _).2.2.1 "" rfl,
   (missing_field_checks emptyStore _).2.2.2 "u" "" rfl rfl⟩

/-- C4 counterexample: after creating an account with email
`User@EXAMPLE.com` (stored as `User@example.com`), a second creation with
`user@example.com` does NOT fail with `DuplicateEmail` — only the domain is
case-folded, the differently-cased local parts keep the two normalized
emails distinct, and the second creation succeeds. -/
theorem local_part_not_casefolded :
    (create_user
        (create_user emptyStore
          { username := some "alice", email := some "User@EXAMPLE.com",
            password := some "pw" }).2
        { username := some "bob", email := some "user@example.com",
          password := some "pw" }).1
      = .ok ⟨2, "bob", "user@example.com", "pbkdf2_sha256$pw",
             false, false, false, none, none, none, none, none⟩ := by
  rfl

/-- C4 amended: `create_user` case-folds only the DOMAIN segment of the
email before the uniqueness check and storage (the local part stays
case-sensitive): every stored account's email is the normalized input, and
creating `user@EXAMPLE.com` then `user@example.com` (same local part,
differently-cased domain) fails with `DuplicateEmail`, while the spec's
pair `User@EXAMPLE.com` / `user@example.com` differs in the local part and
does not collide. -/
theorem email_domain_casefold (st : Store) (c : Credentials) (u : User)
    (st' : Store) (em : String)
    (he : c.email = some em) (h : create_user st c = (.ok u, st')) :
    u.email = normalize_email em ∧
    normalize_email "User@EXAMPLE.com" = "User@example.com" ∧
    (create_user
        (create_user emptyStore
          { username := some "alice", email := some "user@EXAMPLE.com",
            password := some "pw" }).2
        { username := some "bob", email := some "user@example.com",
          password := some "pw" }).1
      = .error .DuplicateEmail := by
  obtain ⟨uname, em', hu, he', hurec, -⟩ := create_user_ok h
  rw [he] at he'
  obtain rfl : em = em' := Option.some.inj he'
  exact ⟨by rw [hurec], by rfl, by rfl⟩

/-- Witness for the amended C4 at a concrete creation. -/
theorem email_domain_casefold_witness :
    (⟨1, "w", "w@d.com", "pbkdf2_sha256$p", false, false, false,
       none, none, none, none, none⟩ : User).email
      = normalize_email "w@D.com" ∧
    normalize_email "User@EXAMPLE.com" = "User@example.com" ∧
    (create_user
        (create_user emptyStore
          { username := some "alice", email := some "user@EXAMPLE.com",
            password := some "pw" }).2
        { username := some "bob", email := some "user@example.com",
          password := some "pw" }).1
      = .error .DuplicateEmail :=
  email_domain_casefold emptyStore
    { username := some "w", email := some "w@D.com", password := some "p" }
    _ _ "w@D.com" rfl rfl

/-- **C5**: for credentials with username, email and password present and
no stored account sharing the username or the normalized email,
`create_user` succeeds and the returned account has `is_active = false`,
`is_staff = false`, `is_superuser = false`, and a non-empty password hash
different from the plaintext. -/
theorem create_account_success_defaults (st : Store) (c : Credentials)
    (uname em p : String)
    (hu : c.username = some uname) (he : c.email = some em)
    (hp : c.password = some p)
    (hfu : ∀ v ∈ st.users, v.username ≠ uname)
    (hfe : ∀ v ∈ st.users, v.email ≠ normalize_email em) :
    ∃ u st', create_user st c = (.ok u, st') ∧
      u.is_active = false ∧ u.is_staff = false ∧ u.is_superuser = false ∧
      u.password ≠ "" ∧ u.password ≠ p := by
  have h1 : (st.users.any fun v => v.username == uname) = false :=
    List.any_eq_false.mpr (fun v hv => by simp [hfu v hv])
  have h2 : (st.users.any fun v => v.email == normalize_email em) = false :=
    List.any_eq_false.mpr (fun v hv => by simp [hfe v hv])
  have hcreate : create_user st c
      = (.ok { pk := st.nextId, username := uname, email := normalize_email em,
               password := set_password c.password, first_name := c.first_name,
               last_name := c.last_name, city := c.city, state := c.state,
               country := c.country },
         ⟨st.users ++
            [{ pk := st.nextId, username := uname, email := normalize_email em,
               password := set_password c.password, first_name := c.first_name,
               last_name := c.last_name, city := c.city, state := c.state,
               country := c.country }], st.nextId + 1⟩) := by
    simp [create_user, hu, he, h1, h2]
  refine ⟨_, _, hcreate, rfl, rfl, rfl, ?_, ?_⟩
  · show set_password c.password ≠ ""
    rw [hp]
    exact set_password_some_ne_empty p
  · show set_password c.password ≠ p
    rw [hp]
    exact set_password_some_ne_plain p

/-- Witness for C5 at a concrete fresh creation. -/
theorem create_account_success_defaults_witness :
    ∃ u st', create_user emptyStore
        { username := some "carol", email := some "c@x.y", password := some "pw" }
      = (.ok u, st') ∧
      u.is_active = false ∧ u.is_staff = false ∧ u.is_superuser = false ∧
      u.password ≠ "" ∧ u.password ≠ "pw" :=
  create_account_success_defaults emptyStore
    { username := some "carol", email := some "c@x.y", password := some "pw" }
    "carol" "c@x.y" "pw" rfl rfl rfl
    (by decide) (by decide)

/-- **C6**: `create_superuser` fails with `MissingPassword` when the
password is `None` (leaving the store unchanged), and whenever it succeeds
the returned account has `is_superuser = true` and `is_staff = true` — so
`is_superuser → is_staff` holds at creation through this path. -/
theorem create_superuser_flags (st : Store) (c : Credentials) :
    (c.password = none → create_superuser st c = (.error .MissingPassword, st)) ∧
    (∀ u st', create_superuser st c = (.ok u, st') →
      u.is_superuser = true ∧ u.is_staff = true) := by
  refine ⟨?_, ?_⟩
  · intro h
    simp [create_superuser, h]
  · intro u st' h
    obtain ⟨p, u₀, st₁, hp, hc, hurec, -⟩ := create_superuser_ok h
    rw [hurec]
    exact ⟨rfl, rfl⟩

/-- Witness for C6: the missing-password failure and a concrete elevated
creation. -/
theorem create_superuser_flags_witness :
    create_superuser emptyStore
        { username := some "root", email := some "r@x.y", password := none }
      = (.error .MissingPassword, emptyStore) ∧
    ((⟨1, "root", "r@x.y", "pbkdf2_sha256$pw", false, true, true,
        none, none, none, none, none⟩ : User).is_superuser = true ∧
     (⟨1, "root", "r@x.y", "pbkdf2_sha256$pw", false, true, true,
        none, none, none, none, none⟩ : User).is_staff = true) :=
  ⟨(create_superuser_flags emptyStore
      { username := some "root", email := some "r@x.y", password := none }).1 rfl,
   (create_superuser_flags emptyStore
      { username := some "root", email := some "r@x.y", password := some "pw" }).2
     _ _ (by rfl)⟩

/-- **C9**: `create_user` does not require a usable password: with a fresh
username and email and `password = None` it succeeds, the stored hash is
the non-empty unusable sentinel which is not the hash of any plaintext, and
only `create_superuser` rejects the missing password. -/
theorem create_account_without_password (st : Store) (c : Credentials)
    (uname em : String)
    (hu : c.username = some uname) (he : c.email = some em)
    (hp : c.password = none)
    (hfu : ∀ v ∈ st.users, v.username ≠ uname)
    (hfe : ∀ v ∈ st.users, v.email ≠ normalize_email em) :
    (∃ u st', create_user st c = (.ok u, st') ∧ u.password ≠ "" ∧
      ∀ p : String, u.password ≠ set_password (some p)) ∧
    create_superuser st c = (.error .MissingPassword, st) := by
  have h1 : (st.users.any fun v => v.username == uname) = false :=
    List.any_eq_false.mpr (fun v hv => by simp [hfu v hv])
  have h2 : (st.users.any fun v => v.email == normalize_email em) = false :=
    List.any_eq_false.mpr (fun v hv => by simp [hfe v hv])
  have hcreate : create_user st c
      = (.ok { pk := st.nextId, username := uname, email := normalize_email em,
               password := set_password c.password, first_name := c.first_name,
               last_name := c.last_name, city := c.city, state := c.state,
               country := c.country },
         ⟨st.users ++
            [{ pk := st.nextId, username := uname, email := normalize_email em,
               password := set_password c.password, first_name := c.first_name,
               last_name := c.last_name, city := c.city, state := c.state,
               country := c.country }], st.nextId + 1⟩) := by
    simp [create_user, hu, he, h1, h2]
  refine ⟨⟨_, _, hcreate, ?_, ?_⟩, ?_⟩
  · show set_password c.password ≠ ""
    rw [hp]
    exact set_password_none_ne_empty
  · intro p
    show set_password c.password ≠ set_password (some p)
    rw [hp]
    exact set_password_none_ne_some p
  · simp [create_superuser, hp]

/-- Witness for C9 at a concrete creation with `password = None`. -/
theorem create_account_without_password_witness :
    (∃ u st', create_user emptyStore
        { username := some "dave", email := some "d@x.y", password := none }
      = (.ok u, st') ∧ u.password ≠ "" ∧
      ∀ p : String, u.password ≠ set_password (some p)) ∧
    create_superuser emptyStore
        { username := some "dave", email := some "d@x.y", password := none }
      = (.error .MissingPassword, emptyStore) :=
  create_account_without_password emptyStore
    { username := some "dave", email := some "d@x.y", password := none }
    "dave" "d@x.y" rfl rfl rfl (by decide) (by decide)

/-- **C10**: the validation failures are raised before any persistence
step: when `create_user` fails with `MissingUsername` or `MissingEmail`, or
`create_superuser` fails with `MissingPassword`, the returned store is
exactly the store before the call. -/
theorem validation_failures_leave_store_unchanged (st : Store) (c : Credentials) :
    (c.username = none → create_user st c = (.error .MissingUsername, st)) ∧
    (∀ uname, c.username = some uname → c.email = none →
      create_user st c = (.error .MissingEmail, st)) ∧
    (c.password = none → create_superuser st c = (.error .MissingPassword, st)) := by
  refine ⟨?_, ?_, ?_⟩
  · intro h
    simp [create_user, h]
  · intro uname h1 h2
    simp [create_user, h1, h2]
  · intro h
    simp [create_superuser, h]

/-- Witness for C10 on a non-empty store, which each failure returns
untouched. -/
theorem validation_failures_leave_store_unchanged_witness :
    create_user
        ⟨[⟨1, "a", "a@x.y", "!", false, false, false, none, none, none, none, none⟩], 2⟩
        { username := none, email := some "e@x.y", password := some "p" }
      = (.error .MissingUsername,
         ⟨[⟨1, "a", "a@x.y", "!", false, false, false, none, none, none, none, none⟩], 2⟩) ∧
    create_user
        ⟨[⟨1, "a", "a@x.y", "!", false, false, false, none, none, none, none, none⟩], 2⟩
        { username := some "u", email := none, password := some "p" }
      = (.error .MissingEmail,
         ⟨[⟨1, "a", "a@x.y", "!", false, false, false, none, none, none, none, none⟩], 2⟩) ∧
    create_superuser
        ⟨[⟨1, "a", "a@x.y", "!", false, false, false, none, none, none, none, none⟩], 2⟩
        { username := some "u", email := some "e@x.y", password := none }
      = (.error .MissingPassword,
         ⟨[⟨1, "a", "a@x.y", "!", false, false, false, none, none, none, none, none⟩], 2⟩) :=
  ⟨(validation_failures_leave_store_unchanged _ _).1 rfl,
   (validation_failures_leave_store_unchanged _ _).2.1 "u" rfl rfl,
   (validation_failures_leave_store_unchanged _ _).2.2 rfl⟩

end Cruzz
